import Mathlib

/-!
Verification of the authentication and identity-linking core of the
Ecodeed Academy backend (`backend/users/`): the credential store
(`models.py`), the identity resolver for social logins
(`social_auth.py`, `BaseSocialAuthView.get_or_create_user`), the
registration and login serializers (`serializers.py`), the Twitter
OAuth2/PKCE callback, and the data-deletion endpoint (`views.py`).

The embedding models the Django ORM as an explicit in-memory store: a
list of user records kept newest-first (the model's Meta ordering is
`["-date_joined"]`, so `QuerySet.first()` returns the newest matching
row, i.e. the first match when scanning our list front to back).
Password hashing (a vetted library, out of scope per the spec) is
modelled as an injective tagging function; Django's unusable password
(`set_password(None)`) is modelled as `none`.
-/

set_option maxHeartbeats 1000000

/-- Decidable equality for `Except`, used to evaluate the fallible
store operations at concrete inputs. -/
instance {ε α : Type} [DecidableEq ε] [DecidableEq α] : DecidableEq (Except ε α) := fun x y =>
  match x, y with
  | .ok a, .ok b =>
    if h : a = b then .isTrue (by rw [h]) else .isFalse (fun he => h (by cases he; rfl))
  | .error a, .error b =>
    if h : a = b then .isTrue (by rw [h]) else .isFalse (fun he => h (by cases he; rfl))
  | .ok _, .error _ => .isFalse (fun he => Except.noConfusion he)
  | .error _, .ok _ => .isFalse (fun he => Except.noConfusion he)

/-- Role enum from `CustomUser.UserType` (`models.py`). -/
inductive UserType
  | STUDENT
  | MENTOR
  | ADMIN
  | READER
deriving DecidableEq, Repr

/-- A row of the `CustomUser` table (`models.py`).  Profile-only fields
(`bio`, `phone_number`, `date_joined`) play no role in the verified
operations; ordering by `date_joined` is represented by list position
(newest first).  An empty `profilePicture` string models an unset
image field (falsy in Python). -/
structure UserRec where
  id : Nat
  email : String
  firstName : String
  lastName : String
  userType : UserType
  profilePicture : String
  googleId : Option String
  facebookId : Option String
  twitterId : Option String
  passwordHash : Option String
  isActive : Bool
  isStaff : Bool
  isSuperuser : Bool
  lastLogin : Option Nat
deriving DecidableEq, Repr

/-- The credential store: all persisted user rows (newest first) and
the next auto-increment primary key. -/
structure Store where
  users : List UserRec
  nextId : Nat
deriving DecidableEq, Repr

/-- A fresh database: no rows, primary keys start at 1. -/
def emptyStore : Store := { users := [], nextId := 1 }

/-- Model of the one-way salted password hasher (out-of-scope vetted
library, per the spec): an injective tag.  Only injectivity and
one-way-ness as an abstraction matter to the verified claims. -/
def hashPassword (raw : String) : String := "pbkdf2_sha256$" ++ raw

/-- `AbstractBaseUser.set_password`: hashes a plaintext password;
`set_password(None)` stores an unusable password, modelled as `none`. -/
def setPassword (u : UserRec) (raw : Option String) : UserRec :=
  { u with passwordHash := raw.map hashPassword }

/-- `AbstractBaseUser.check_password`: compares against the stored
hash; always false for an unusable (social-only) password. -/
def checkPassword (u : UserRec) (raw : String) : Bool :=
  match u.passwordHash with
  | some h => h == hashPassword raw
  | none => false

/-- Characters Python's `str.strip()` removes by default. -/
def isPySpace (c : Char) : Bool :=
  c = ' ' ∨ c = '\t' ∨ c = '\n' ∨ c = '\x0d' ∨ c = '\x0b' ∨ c = '\x0c'

/-- Python `str.strip()` on the character list. -/
def stripChars (cs : List Char) : List Char :=
  ((cs.dropWhile isPySpace).reverse.dropWhile isPySpace).reverse

/-- Python `str.strip()`. -/
def pyStrip (s : String) : String := String.mk (stripChars s.toList)

/-- Python `str.lower()` (ASCII case, which is all the sources use). -/
def pyLower (s : String) : String := String.mk (s.toList.map Char.toLower)

/-- Python `str.rsplit(c, 1)`: split at the last occurrence of `c`,
or `none` when `c` does not occur. -/
def rsplitAt (c : Char) : List Char → Option (List Char × List Char)
  | [] => none
  | x :: xs =>
    match rsplitAt c xs with
    | some (l, r) => some (x :: l, r)
    | none => if x = c then some ([], xs) else none

/-- `BaseUserManager.normalize_email`: strip whitespace, split at the
last `@`, lowercase the domain part; an email with no `@` is returned
unchanged (and unstripped, exactly as in Django). -/
def normalize_email (email : String) : String :=
  match rsplitAt '@' (pyStrip email).toList with
  | none => email
  | some (name, dom) => String.mk (name ++ '@' :: dom.map Char.toLower)

/-- Extra fields passed to `UserManager.create_user`, with the model
field defaults from `models.py` (`user_type` defaults to READER,
`is_active` to True, `is_staff`/`is_superuser` to False, provider ids
to NULL). -/
structure NewUserFields where
  firstName : String
  lastName : String
  userType : UserType := UserType.READER
  googleId : Option String := none
  facebookId : Option String := none
  twitterId : Option String := none
  isActive : Bool := true
  isStaff : Bool := false
  isSuperuser : Bool := false
deriving DecidableEq, Repr

/-- The in-memory `CustomUser` instance built by `UserManager.create_user`
before `set_password`/`save`. -/
def newUser (id : Nat) (email : String) (extra : NewUserFields) : UserRec :=
  { id := id
    email := email
    firstName := extra.firstName
    lastName := extra.lastName
    userType := extra.userType
    profilePicture := ""
    googleId := extra.googleId
    facebookId := extra.facebookId
    twitterId := extra.twitterId
    passwordHash := none
    isActive := extra.isActive
    isStaff := extra.isStaff
    isSuperuser := extra.isSuperuser
    lastLogin := none }

/-- Errors raised along the store paths: `ValueError("The Email field
must be set")` in `create_user`, and the database `IntegrityError`
from the unique constraint on `email` (the only unique column besides
the primary key, see `models.py`). -/
inductive StoreError
  | emailRequired
  | integrityError
deriving DecidableEq, Repr

/-- `UserManager.create_user` (`models.py`): requires a non-empty
email, normalizes it (domain lowercased), hashes the password, and
saves; the save violates the unique constraint on `email` exactly when
another row holds the same (case-sensitively equal) email string. -/
def create_user (s : Store) (email : String) (password : Option String)
    (extra : NewUserFields) : Except StoreError (UserRec × Store) :=
  if email = "" then .error .emailRequired
  else
    let em := normalize_email email
    let u := setPassword (newUser s.nextId em extra) password
    if s.users.any (fun v => v.email == em) then .error .integrityError
    else .ok (u, { users := u :: s.users, nextId := s.nextId + 1 })

/-- The record `create_user` stores on its success path (used to state
its characterization). -/
def mkCreatedUser (s : Store) (email : String) (password : Option String)
    (extra : NewUserFields) : UserRec :=
  setPassword (newUser s.nextId (normalize_email email) extra) password

/-- The three social providers with an id column on `CustomUser`. -/
inductive Provider
  | google
  | facebook
  | twitter
deriving DecidableEq, Repr

/-- Read the provider-id column named by `social_id_field`. -/
def getSocialId (u : UserRec) : Provider → Option String
  | .google => u.googleId
  | .facebook => u.facebookId
  | .twitter => u.twitterId

/-- `setattr(user, social_id_field, social_id)`. -/
def setSocialId (u : UserRec) (p : Provider) (sid : String) : UserRec :=
  match p with
  | .google => { u with googleId := some sid }
  | .facebook => { u with facebookId := some sid }
  | .twitter => { u with twitterId := some sid }

/-- `user.save()` on an existing row: the row with the matching
primary key is overwritten in place. -/
def updateUser (users : List UserRec) (u : UserRec) : List UserRec :=
  users.map (fun v => if v.id = u.id then u else v)

/-- The `**{social_id_field: social_id}` keyword expansion in the
`create_user` call of `get_or_create_user`. -/
def socialExtra (p : Provider) (sid : String) (fn ln : String) : NewUserFields :=
  match p with
  | .google => { firstName := fn, lastName := ln, googleId := some sid }
  | .facebook => { firstName := fn, lastName := ln, facebookId := some sid }
  | .twitter => { firstName := fn, lastName := ln, twitterId := some sid }

/-- `BaseSocialAuthView.get_or_create_user` (`social_auth.py` lines
37-91): look up by provider id first; else by (case-sensitively)
exact email, linking the provider id and filling the picture only
when the incoming one is non-empty and the stored one empty; else
create a new user with no password, setting the picture afterwards
when supplied. -/
def get_or_create_user (s : Store) (email first_name last_name : String)
    (social_id_field : Provider) (social_id : String) (profile_picture : String) :
    Except StoreError (UserRec × Bool × Store) :=
  match s.users.find? (fun u => getSocialId u social_id_field == some social_id) with
  | some u => .ok (u, false, s)
  | none =>
    match s.users.find? (fun u => u.email == email) with
    | some u =>
      let linked := setSocialId u social_id_field social_id
      let linked2 :=
        if profile_picture ≠ "" ∧ linked.profilePicture = "" then
          { linked with profilePicture := profile_picture }
        else linked
      .ok (linked2, false, { s with users := updateUser s.users linked2 })
    | none =>
      match create_user s email none (socialExtra social_id_field social_id first_name last_name) with
      | .error e => .error e
      | .ok (u, s1) =>
        if profile_picture ≠ "" then
          let u2 := { u with profilePicture := profile_picture }
          .ok (u2, true, { s1 with users := updateUser s1.users u2 })
        else
          .ok (u, true, s1)

/-- Registration failures surfaced by `UserRegistrationSerializer`
(min_length validator on `password`, the implicit unique validator on
`email`, the `validate` mismatch check) or by the store. -/
inductive RegError
  | passwordTooShort
  | duplicateEmail
  | passwordMismatch
  | storeFailure (e : StoreError)
deriving DecidableEq, Repr

/-- `UserRegistrationSerializer` + `UserRegistrationView.create`
(`serializers.py` lines 50-117): field validation (password length at
least 8; the unique validator compares the raw submitted email
case-sensitively against stored rows), then the password/confirmation
match check, then `create_user` with `user_type` defaulting to READER. -/
def register (s : Store) (email password confirm_password first_name last_name : String)
    (user_type : Option UserType) : Except RegError (UserRec × Store) :=
  if password.length < 8 then .error .passwordTooShort
  else if s.users.any (fun u => u.email == email) then .error .duplicateEmail
  else if password ≠ confirm_password then .error .passwordMismatch
  else
    match create_user s email (some password)
        { firstName := first_name, lastName := last_name,
          userType := user_type.getD UserType.READER } with
    | .error e => .error (.storeFailure e)
    | .ok (u, s1) => .ok (u, s1)

/-- Login failures raised by `UserLoginSerializer.validate`. -/
inductive LoginError
  | missingField
  | invalidCredentials
  | accountDisabled
deriving DecidableEq, Repr

/-- `UserLoginSerializer.validate` (`serializers.py` lines 138-164):
requires both fields, looks the email up with a case-sensitive exact
filter, checks the password, then the active flag. -/
def login_validate (s : Store) (email password : String) : Except LoginError UserRec :=
  if email ≠ "" ∧ password ≠ "" then
    match s.users.find? (fun u => u.email == email) with
    | some u =>
      if checkPassword u password then
        if !u.isActive then .error .accountDisabled
        else .ok u
      else .error .invalidCredentials
    | none => .error .invalidCredentials
  else .error .missingField

/-- `UserLoginView.post` (`views.py` lines 87-102): validates the
credentials and mints tokens.  Neither the serializer nor the view
writes any user field — in particular `last_login` is never updated —
so the store component of the result is the input store unchanged. -/
def userLoginPost (s : Store) (email password : String) :
    Except LoginError UserRec × Store :=
  (login_validate s email password, s)

/-- Placeholder email synthesized by `FacebookSocialAuthView.post`
(`social_auth.py` line 219) when the provider supplies no email. -/
def facebookPlaceholderEmail (facebook_id : String) : String :=
  "fb_" ++ facebook_id ++ "@facebook.placeholder.com"

/-- Email actually fed to the resolver by the Facebook view. -/
def facebookEffectiveEmail (email facebook_id : String) : String :=
  if email = "" then facebookPlaceholderEmail facebook_id else email

/-- Placeholder email synthesized by `TwitterSocialAuthView.post`
(`social_auth.py` line 460) when the caller supplies no email. -/
def twitterDirectPlaceholderEmail (twitter_id : String) : String :=
  "twitter_" ++ twitter_id ++ "@twitter.placeholder.com"

/-- Email actually fed to the resolver by the direct Twitter view. -/
def twitterDirectEffectiveEmail (email twitter_id : String) : String :=
  if email = "" then twitterDirectPlaceholderEmail twitter_id else email

/-- Profile fields fetched from the Twitter `users/me` endpoint in
`TwitterCallbackView.post`. -/
structure TwitterProfile where
  id : String
  name : String
  username : String
  profileImageUrl : String
deriving DecidableEq, Repr

/-- Python `name.split(" ", 1)`: the part before the first space and,
when a space occurs, the remainder. -/
def splitFirstSpace : List Char → List Char × Option (List Char)
  | [] => ([], none)
  | c :: rest =>
    if c = ' ' then ([], some rest)
    else
      match splitFirstSpace rest with
      | (l, r) => (c :: l, r)

/-- The normalized claim set a social view passes to the resolver. -/
structure SocialClaims where
  email : String
  firstName : String
  lastName : String
  socialId : String
  profilePicture : String
deriving DecidableEq, Repr

/-- Claim extraction in `TwitterCallbackView.post` (`social_auth.py`
lines 394-407): the placeholder email is built from the profile
`username` (not the id); the display name splits on the first space;
`_normal` is removed from the avatar URL. -/
def twitterCallbackClaims (p : TwitterProfile) : SocialClaims :=
  { email := p.username ++ "@twitter.placeholder.com"
    firstName := String.mk (splitFirstSpace p.name.toList).1
    lastName :=
      match (splitFirstSpace p.name.toList).2 with
      | some r => String.mk r
      | none => ""
    socialId := p.id
    profilePicture := p.profileImageUrl.replace "_normal" "" }

/-- The two session keys the Twitter PKCE flow uses
(`twitter_oauth_state`, `twitter_code_verifier`). -/
structure Session where
  twitterOauthState : Option String
  twitterCodeVerifier : Option String
deriving DecidableEq, Repr

/-- The session writes performed by `TwitterLoginView.get`
(`social_auth.py` lines 272-274) after generating the random state and
PKCE verifier (the randomness itself is outside the model; the
generated values are non-empty URL-safe tokens). -/
def twitterLoginStoreSession (sess : Session) (state code_verifier : String) : Session :=
  { sess with twitterOauthState := some state, twitterCodeVerifier := some code_verifier }

/-- Failures of `TwitterCallbackView.post`: missing code, CSRF state
mismatch, either upstream HTTP exchange failing, or the store failing. -/
inductive TwitterCallbackError
  | codeRequired
  | csrfMismatch
  | tokenExchangeFailed
  | userFetchFailed
  | storeFailure (e : StoreError)
deriving DecidableEq, Repr

/-- `TwitterCallbackView.post` (`social_auth.py` lines 315-423).
`code` and `state` are `request.data.get(...)` results (`none` when
absent); `token_exchange` is the outcome of the upstream code/token
POST (`some access_token` on 2xx, `none` on `RequestException`);
`user_fetch` is the outcome of the profile GET for a given access
token.  The state check precedes both upstream calls; the session keys
are popped only on the success path (line 419). -/
def twitterCallbackPost (s : Store) (sess : Session) (code state : Option String)
    (token_exchange : Option String) (user_fetch : String → Option TwitterProfile) :
    Except TwitterCallbackError (UserRec × Bool) × Store × Session :=
  if code = none ∨ code = some "" then (.error .codeRequired, s, sess)
  else
    match sess.twitterOauthState with
    | none => (.error .csrfMismatch, s, sess)
    | some stored =>
      if stored = "" ∨ state ≠ some stored then (.error .csrfMismatch, s, sess)
      else
        match token_exchange with
        | none => (.error .tokenExchangeFailed, s, sess)
        | some access_token =>
          match user_fetch access_token with
          | none => (.error .userFetchFailed, s, sess)
          | some prof =>
            let c := twitterCallbackClaims prof
            match get_or_create_user s c.email c.firstName c.lastName
                Provider.twitter c.socialId c.profilePicture with
            | .error e => (.error (.storeFailure e), s, sess)
            | .ok (u, created, s1) =>
              (.ok (u, created), s1, { twitterOauthState := none, twitterCodeVerifier := none })

/-- Python `f"{n:05d}"` for the truncated hash values. -/
def pad5 (n : Nat) : String :=
  String.mk (List.replicate (5 - (toString n).length) '0') ++ toString n

/-- An HTTP response of `DataDeletionRequestView.post`: status code,
message, and the confirmation code when the branch includes one. -/
structure DeletionResponse where
  statusCode : Nat
  message : String
  confirmationCode : Option String
deriving DecidableEq, Repr

/-- Message returned when the looked-up account exists and the caller
is not that authenticated user (`views.py` lines 296-297). -/
def deletionReceivedMessage : String :=
  "Your data deletion request has been received. We will process it within 30 days and send a confirmation to your email."

/-- Message returned from the `User.DoesNotExist` branch (`views.py`
lines 306-307). -/
def deletionNotFoundMessage : String :=
  "If an account exists with this email, a deletion request has been submitted."

/-- Message returned when an authenticated user deletes their own
account (`views.py` line 286). -/
def deletionDeletedMessage : String :=
  "Your account and all associated data have been deleted."

/-- `DataDeletionRequestView.post` (`views.py` lines 266-310).
`pyHash` stands for Python's per-process-randomized builtin `hash`,
passed in explicitly; `auth_user` is `request.user` when
authenticated.  The input email is stripped and fully lowercased, then
looked up exactly; the DoesNotExist branch answers 200 with a distinct
message and no confirmation code. -/
def dataDeletionRequestPost (pyHash : String → Nat) (s : Store) (raw_email : String)
    (auth_user : Option UserRec) : DeletionResponse × Store :=
  let email := pyLower (pyStrip raw_email)
  if email = "" then
    ({ statusCode := 400, message := "Email address is required.", confirmationCode := none }, s)
  else
    match s.users.find? (fun u => u.email == email) with
    | some u =>
      match auth_user with
      | some au =>
        if au.email = email then
          ({ statusCode := 200, message := deletionDeletedMessage,
             confirmationCode := some ("DEL-" ++ toString u.id ++ "-" ++ pad5 (pyHash email % 100000)) },
           { s with users := s.users.filter (fun v => v.id ≠ u.id) })
        else
          ({ statusCode := 200, message := deletionReceivedMessage,
             confirmationCode := some ("REQ-" ++ pad5 (pyHash email % 100000)) }, s)
      | none =>
        ({ statusCode := 200, message := deletionReceivedMessage,
           confirmationCode := some ("REQ-" ++ pad5 (pyHash email % 100000)) }, s)
    | none =>
      ({ statusCode := 200, message := deletionNotFoundMessage, confirmationCode := none }, s)

/-- Column options as declared on a Django model field. -/
structure FieldOptions where
  unique : Bool
  nullable : Bool
  blank : Bool
  maxLength : Option Nat
deriving DecidableEq, Repr

/-- `CustomUser.email` (`models.py` lines 143-145): `EmailField(unique=True)`
(Django's EmailField default max_length is 254). -/
def email_field : FieldOptions :=
  { unique := true, nullable := false, blank := false, maxLength := some 254 }

/-- `CustomUser.google_id` (`models.py` lines 182-187):
`CharField(max_length=100, blank=True, null=True)` — no unique option. -/
def google_id_field : FieldOptions :=
  { unique := false, nullable := true, blank := true, maxLength := some 100 }

/-- `CustomUser.facebook_id` (`models.py` lines 188-193). -/
def facebook_id_field : FieldOptions :=
  { unique := false, nullable := true, blank := true, maxLength := some 100 }

/-- `CustomUser.twitter_id` (`models.py` lines 194-199). -/
def twitter_id_field : FieldOptions :=
  { unique := false, nullable := true, blank := true, maxLength := some 100 }

/-- Primary keys in the store are below the auto-increment counter
(maintained by every creation path). -/
def IdsBounded (s : Store) : Prop :=
  ∀ u ∈ s.users, u.id < s.nextId

/-- No two rows share a non-null provider id for the same provider. -/
def ProviderIdsUnique (s : Store) : Prop :=
  ∀ p : Provider, ∀ u ∈ s.users, ∀ v ∈ s.users, ∀ sid : String,
    getSocialId u p = some sid → getSocialId v p = some sid → u = v

/-- The row produced by registering alice with password secret123. -/
def alice : UserRec :=
  { id := 1
    email := "alice@example.com"
    firstName := "Alice"
    lastName := "A"
    userType := UserType.READER
    profilePicture := ""
    googleId := none
    facebookId := none
    twitterId := none
    passwordHash := some "pbkdf2_sha256$secret123"
    isActive := true
    isStaff := false
    isSuperuser := false
    lastLogin := none }

/-- The store after alice's registration. -/
def aliceStore : Store := { users := [alice], nextId := 2 }

/-- The second row created when a differently-cased local part slips
past the case-sensitive unique check. -/
def aliceUpper : UserRec :=
  { alice with id := 2, email := "Alice@example.com" }

/-! Helper lemmas shared by the claim theorems. -/

theorem getSocialId_setSocialId_same (u : UserRec) (p : Provider) (sid : String) :
    getSocialId (setSocialId u p sid) p = some sid := by
  cases p <;> rfl

theorem getSocialId_setSocialId_other (u : UserRec) (p q : Provider) (sid : String)
    (h : q ≠ p) : getSocialId (setSocialId u p sid) q = getSocialId u q := by
  cases p <;> cases q <;> simp_all [getSocialId, setSocialId]

theorem setSocialId_id (u : UserRec) (p : Provider) (sid : String) :
    (setSocialId u p sid).id = u.id := by
  cases p <;> rfl

theorem setSocialId_email (u : UserRec) (p : Provider) (sid : String) :
    (setSocialId u p sid).email = u.email := by
  cases p <;> rfl

theorem setSocialId_passwordHash (u : UserRec) (p : Provider) (sid : String) :
    (setSocialId u p sid).passwordHash = u.passwordHash := by
  cases p <;> rfl

theorem setSocialId_profilePicture (u : UserRec) (p : Provider) (sid : String) :
    (setSocialId u p sid).profilePicture = u.profilePicture := by
  cases p <;> rfl

theorem getSocialId_setPicture (u : UserRec) (x : String) (q : Provider) :
    getSocialId { u with profilePicture := x } q = getSocialId u q := by
  cases q <;> rfl

theorem getSocialId_socialExtraUser (id : Nat) (em : String) (p q : Provider)
    (sid fn ln : String) (pw : Option String) :
    getSocialId (setPassword (newUser id em (socialExtra p sid fn ln)) pw) q =
      if q = p then some sid else none := by
  cases p <;> cases q <;> rfl

theorem find?_social_none {s : Store} {p : Provider} {sid : String}
    (h : ∀ u ∈ s.users, getSocialId u p ≠ some sid) :
    s.users.find? (fun u => getSocialId u p == some sid) = none := by
  rw [List.find?_eq_none]
  intro u hu
  simp only [beq_iff_eq]
  exact h u hu

theorem find?_email_none {s : Store} {email : String}
    (h : ∀ u ∈ s.users, u.email ≠ email) :
    s.users.find? (fun u => u.email == email) = none := by
  rw [List.find?_eq_none]
  intro u hu
  simp only [beq_iff_eq]
  exact h u hu

theorem create_user_ok (s : Store) (email : String) (pw : Option String)
    (extra : NewUserFields) (he : email ≠ "")
    (hfresh : ∀ u ∈ s.users, u.email ≠ normalize_email email) :
    create_user s email pw extra =
      .ok (mkCreatedUser s email pw extra,
           { users := mkCreatedUser s email pw extra :: s.users, nextId := s.nextId + 1 }) := by
  have hany : (s.users.any fun v => v.email == normalize_email email) = false := by
    rw [List.any_eq_false]
    intro v hv
    simp only [beq_iff_eq]
    exact hfresh v hv
  unfold create_user mkCreatedUser
  rw [if_neg he]
  simp only [hany]
  rfl

/-- C1: the identity resolver `get_or_create_user` applies the
three-step precedence in order.  (1) When a row's provider-id column
for `social_id_field` equals the incoming social id, the first such
row is returned with the store unchanged.  (2) Otherwise, when a row's
email equals the incoming email, that row is returned with the
provider id linked onto it, the profile picture filled only when the
stored one is empty (and the incoming one non-empty), and nothing else
changed.  (3) Otherwise a new identity is created holding the incoming
email (normalized by the store: domain lowercased), the incoming
names, the provider id, the incoming picture, and no password. -/
theorem c1_resolver_three_step_precedence (s : Store) (email fn ln sid pic : String)
    (p : Provider) :
    (∀ u, s.users.find? (fun v => getSocialId v p == some sid) = some u →
       get_or_create_user s email fn ln p sid pic = .ok (u, false, s))
    ∧
    (s.users.find? (fun v => getSocialId v p == some sid) = none →
     ∀ u, s.users.find? (fun v => v.email == email) = some u →
       ∃ u2, get_or_create_user s email fn ln p sid pic =
           .ok (u2, false, { s with users := updateUser s.users u2 }) ∧
         getSocialId u2 p = some sid ∧
         u2.id = u.id ∧ u2.email = u.email ∧ u2.passwordHash = u.passwordHash ∧
         u2.profilePicture = (if pic ≠ "" ∧ u.profilePicture = "" then pic else u.profilePicture) ∧
         (∀ q, q ≠ p → getSocialId u2 q = getSocialId u q))
    ∧
    (s.users.find? (fun v => getSocialId v p == some sid) = none →
     s.users.find? (fun v => v.email == email) = none →
     email ≠ "" →
     (∀ u ∈ s.users, u.email ≠ normalize_email email) →
       ∃ u2 s2, get_or_create_user s email fn ln p sid pic = .ok (u2, true, s2) ∧
         u2.email = normalize_email email ∧ u2.firstName = fn ∧ u2.lastName = ln ∧
         getSocialId u2 p = some sid ∧ u2.passwordHash = none ∧
         u2.profilePicture = pic ∧
         u2 ∈ s2.users ∧ s2.users.length = s.users.length + 1) := by
  refine ⟨?_, ?_, ?_⟩
  · intro u h1
    unfold get_or_create_user
    rw [h1]
  · intro h1 u h2
    unfold get_or_create_user
    rw [h1, h2]
    have hpp : (setSocialId u p sid).profilePicture = u.profilePicture :=
      setSocialId_profilePicture u p sid
    simp only [hpp]
    by_cases hc : pic ≠ "" ∧ u.profilePicture = ""
    · rw [if_pos hc]
      refine ⟨{ setSocialId u p sid with profilePicture := pic }, rfl, ?_, ?_, ?_, ?_, ?_, ?_⟩
      · rw [getSocialId_setPicture, getSocialId_setSocialId_same]
      · exact setSocialId_id u p sid
      · exact setSocialId_email u p sid
      · exact setSocialId_passwordHash u p sid
      · simp [if_pos hc]
      · intro q hq
        rw [getSocialId_setPicture, getSocialId_setSocialId_other u p q sid hq]
    · rw [if_neg hc]
      refine ⟨setSocialId u p sid, rfl, getSocialId_setSocialId_same u p sid,
        setSocialId_id u p sid, setSocialId_email u p sid,
        setSocialId_passwordHash u p sid, ?_, ?_⟩
      · simp [if_neg hc, hpp]
      · intro q hq
        exact getSocialId_setSocialId_other u p q sid hq
  · intro h1 h2 he hfresh
    unfold get_or_create_user
    rw [h1, h2, create_user_ok s email none (socialExtra p sid fn ln) he hfresh]
    dsimp only
    by_cases hp : pic ≠ ""
    · rw [if_pos hp]
      refine ⟨{ mkCreatedUser s email none (socialExtra p sid fn ln) with profilePicture := pic },
        _, rfl, ?_, ?_, ?_, ?_, rfl, rfl, ?_, ?_⟩
      · rfl
      · cases p <;> rfl
      · cases p <;> rfl
      · rw [getSocialId_setPicture]
        have := getSocialId_socialExtraUser s.nextId (normalize_email email) p p sid fn ln none
        simpa [mkCreatedUser] using this
      · exact List.mem_map.mpr ⟨mkCreatedUser s email none (socialExtra p sid fn ln),
          List.mem_cons_self _ _, by simp⟩
      · simp [updateUser, List.length_map]
    · rw [if_neg hp]
      have hpic : pic = "" := by
        by_contra hcon
        exact hp hcon
      refine ⟨mkCreatedUser s email none (socialExtra p sid fn ln),
        _, rfl, rfl, ?_, ?_, ?_, rfl, ?_, ?_, by simp⟩
      · cases p <;> rfl
      · cases p <;> rfl
      · have := getSocialId_socialExtraUser s.nextId (normalize_email email) p p sid fn ln none
        simpa [mkCreatedUser] using this
      · rw [hpic]
        rfl
      · exact List.mem_cons_self _ _

/-- Witness for C1: branch three at a concrete empty store creates the
new identity. -/
theorem c1_resolver_three_step_precedence_witness :
    ∃ u2 s2, get_or_create_user emptyStore "bob@example.com" "Bob" "B"
        Provider.google "g1" "" = .ok (u2, true, s2) ∧
      u2.email = normalize_email "bob@example.com" ∧ u2.firstName = "Bob" ∧ u2.lastName = "B" ∧
      getSocialId u2 Provider.google = some "g1" ∧ u2.passwordHash = none ∧
      u2.profilePicture = "" ∧
      u2 ∈ s2.users ∧ s2.users.length = emptyStore.users.length + 1 :=
  (c1_resolver_three_step_precedence emptyStore "bob@example.com" "Bob" "B" "g1" ""
      Provider.google).2.2 rfl rfl (by decide) (by intro u hu; cases hu)

/-- C5: the social exchange is idempotent for a brand-new user.  With
claims whose provider id and email (and normalized email) match no
existing row, the first `get_or_create_user` call returns
`created = true` and the second call with identical claims returns the
very same record with `created = false`, leaving the store unchanged
— so both calls resolve to the identity with the same id, and the
surrounding `create_response` maps them to 201 and 200 respectively. -/
theorem c5_social_exchange_idempotent (s : Store) (email fn ln sid pic : String)
    (p : Provider)
    (he : email ≠ "")
    (hsid : ∀ u ∈ s.users, getSocialId u p ≠ some sid)
    (hemail : ∀ u ∈ s.users, u.email ≠ email)
    (hnorm : ∀ u ∈ s.users, u.email ≠ normalize_email email) :
    ∃ u s1,
      get_or_create_user s email fn ln p sid pic = .ok (u, true, s1) ∧
      get_or_create_user s1 email fn ln p sid pic = .ok (u, false, s1) := by
  have h1 := find?_social_none hsid
  have h2 := find?_email_none hemail
  have hsidSelf :
      ∀ x : String, getSocialId { mkCreatedUser s email none (socialExtra p sid fn ln) with
        profilePicture := x } p = some sid := by
    intro x
    rw [getSocialId_setPicture]
    have := getSocialId_socialExtraUser s.nextId (normalize_email email) p p sid fn ln none
    simpa [mkCreatedUser] using this
  have hsidSelf0 : getSocialId (mkCreatedUser s email none (socialExtra p sid fn ln)) p = some sid := by
    have := getSocialId_socialExtraUser s.nextId (normalize_email email) p p sid fn ln none
    simpa [mkCreatedUser] using this
  by_cases hp : pic ≠ ""
  · refine ⟨{ mkCreatedUser s email none (socialExtra p sid fn ln) with profilePicture := pic },
      { users := updateUser (mkCreatedUser s email none (socialExtra p sid fn ln) ::
          s.users) { mkCreatedUser s email none (socialExtra p sid fn ln) with
            profilePicture := pic },
        nextId := s.nextId + 1 }, ?_, ?_⟩
    · unfold get_or_create_user
      rw [h1, h2, create_user_ok s email none (socialExtra p sid fn ln) he hnorm]
      dsimp only
      rw [if_pos hp]
    · unfold get_or_create_user
      have hhead : updateUser (mkCreatedUser s email none (socialExtra p sid fn ln) :: s.users)
          { mkCreatedUser s email none (socialExtra p sid fn ln) with profilePicture := pic } =
          { mkCreatedUser s email none (socialExtra p sid fn ln) with profilePicture := pic } ::
            updateUser s.users { mkCreatedUser s email none (socialExtra p sid fn ln) with
              profilePicture := pic } := by
        simp [updateUser]
      rw [hhead, List.find?_cons_of_pos]
      simp only [beq_iff_eq]
      exact hsidSelf pic
  · refine ⟨mkCreatedUser s email none (socialExtra p sid fn ln),
      { users := mkCreatedUser s email none (socialExtra p sid fn ln) :: s.users,
        nextId := s.nextId + 1 }, ?_, ?_⟩
    · unfold get_or_create_user
      rw [h1, h2, create_user_ok s email none (socialExtra p sid fn ln) he hnorm]
      dsimp only
      rw [if_neg hp]
    · unfold get_or_create_user
      rw [List.find?_cons_of_pos]
      simp only [beq_iff_eq]
      exact hsidSelf0

/-- Witness for C5: the double exchange on an empty store. -/
theorem c5_social_exchange_idempotent_witness :
    ∃ u s1,
      get_or_create_user emptyStore "carol@example.com" "Carol" "C" Provider.facebook "f7"
        "http://pic" = .ok (u, true, s1) ∧
      get_or_create_user s1 "carol@example.com" "Carol" "C" Provider.facebook "f7"
        "http://pic" = .ok (u, false, s1) :=
  c5_social_exchange_idempotent emptyStore "carol@example.com" "Carol" "C" "f7" "http://pic"
    Provider.facebook (by decide) (by intro u hu; cases hu) (by intro u hu; cases hu)
    (by intro u hu; cases hu)

theorem register_ok (s : Store) (email pw cpw fn ln : String) (rt : Option UserType)
    (h8 : 8 ≤ pw.length) (hm : pw = cpw) (he : email ≠ "")
    (hraw : ∀ u ∈ s.users, u.email ≠ email)
    (hnorm : ∀ u ∈ s.users, u.email ≠ normalize_email email) :
    register s email pw cpw fn ln rt =
      .ok (mkCreatedUser s email (some pw)
             { firstName := fn, lastName := ln, userType := rt.getD UserType.READER },
           { users := mkCreatedUser s email (some pw)
               { firstName := fn, lastName := ln, userType := rt.getD UserType.READER } :: s.users,
             nextId := s.nextId + 1 }) := by
  have hany : (s.users.any fun u => u.email == email) = false := by
    rw [List.any_eq_false]
    intro u hu
    simp only [beq_iff_eq]
    exact hraw u hu
  unfold register
  rw [if_neg (by omega : ¬ pw.length < 8),
    if_neg (show ¬((s.users.any fun u => u.email == email) = true) by simp [hany]),
    if_neg (show ¬pw ≠ cpw by simp [hm]),
    create_user_ok s email (some pw) _ he hnorm]

/-- C2 counterexample: an identity registered as `alice@Example.com`
is stored with email `alice@example.com` (only the domain is
lowercased), yet direct login with the case variant
`ALICE@example.com` and the correct password fails with
InvalidCredentials, because `UserLoginSerializer.validate` filters
with a case-sensitive exact match. -/
theorem c2_case_insensitive_login_counterexample :
    create_user emptyStore "alice@Example.com" (some "secret123")
      { firstName := "Alice", lastName := "A" } = .ok (alice, aliceStore) ∧
    alice.email = "alice@example.com" ∧
    checkPassword alice "secret123" = true ∧
    alice.isActive = true ∧
    login_validate aliceStore "ALICE@example.com" "secret123" =
      .error .invalidCredentials := by
  decide

/-- C2 amended: the login email lookup is case-sensitive.  Login
succeeds exactly on the case-sensitively matching stored (normalized)
email string with the correct password on an active account; any
submitted email that differs as a string from every stored email —
including mere case variants of a registered one — fails with
InvalidCredentials. -/
theorem c2_login_exact_match (s : Store) (e pw : String) :
    (∀ u, e ≠ "" → pw ≠ "" →
      s.users.find? (fun v => v.email == e) = some u →
      checkPassword u pw = true → u.isActive = true →
      login_validate s e pw = .ok u)
    ∧
    (e ≠ "" → pw ≠ "" →
      (∀ v ∈ s.users, v.email ≠ e) →
      login_validate s e pw = .error .invalidCredentials) := by
  constructor
  · intro u he hp hf hc ha
    unfold login_validate
    rw [if_pos ⟨he, hp⟩, hf]
    dsimp only
    rw [if_pos hc]
    simp [ha]
  · intro he hp hnone
    unfold login_validate
    rw [if_pos ⟨he, hp⟩, find?_email_none hnone]

/-- Witness for the amended C2 at the concrete store: the exact stored
string succeeds, the upper-cased variant misses every row. -/
theorem c2_login_exact_match_witness :
    login_validate aliceStore "alice@example.com" "secret123" = .ok alice ∧
    login_validate aliceStore "ALICE@example.com" "secret123" =
      .error .invalidCredentials :=
  ⟨(c2_login_exact_match aliceStore "alice@example.com" "secret123").1 alice
      (by decide) (by decide) (by decide) (by decide) (by decide),
    (c2_login_exact_match aliceStore "ALICE@example.com" "secret123").2
      (by decide) (by decide) (by decide)⟩

/-- C3 counterexample: email is not case-insensitively unique.  After
a valid registration of `alice@example.com`, a second valid
registration with the case variant `Alice@example.com` succeeds and
creates a second, distinct identity — instead of failing with
DuplicateEmail as the claim requires. -/
theorem c3_duplicate_case_variant_counterexample :
    register emptyStore "alice@example.com" "secret123" "secret123" "Alice" "A" none =
      .ok (alice, aliceStore) ∧
    register aliceStore "Alice@example.com" "secret123" "secret123" "Alice" "A" none =
      .ok (aliceUpper, { users := [aliceUpper, alice], nextId := 3 }) ∧
    aliceUpper.id ≠ alice.id := by
  decide

/-- C3 amended: registration succeeds exactly once per exact email
string.  A valid registration whose (raw and normalized) email
matches no stored row succeeds; any later registration whose raw
email is case-sensitively equal to a stored email fails with
DuplicateEmail.  Case variants of the local part are treated as
distinct emails (the unique check, both the serializer validator and
the database constraint, is case-sensitive). -/
theorem c3_registration_unique_exact (s : Store) (email pw cpw fn ln : String)
    (rt : Option UserType) :
    (8 ≤ pw.length → pw = cpw → email ≠ "" →
      (∀ u ∈ s.users, u.email ≠ email) →
      (∀ u ∈ s.users, u.email ≠ normalize_email email) →
      ∃ u s1, register s email pw cpw fn ln rt = .ok (u, s1) ∧
        u.email = normalize_email email ∧ u ∈ s1.users)
    ∧
    (∀ u ∈ s.users, 8 ≤ pw.length → email = u.email →
      register s email pw cpw fn ln rt = .error .duplicateEmail) := by
  constructor
  · intro h8 hm he hraw hnorm
    rw [register_ok s email pw cpw fn ln rt h8 hm he hraw hnorm]
    exact ⟨_, _, rfl, rfl, List.mem_cons_self _ _⟩
  · intro u hu h8 he
    have hany : (s.users.any fun v => v.email == email) = true := by
      rw [List.any_eq_true]
      exact ⟨u, hu, by simp [beq_iff_eq, he]⟩
    unfold register
    rw [if_neg (by omega : ¬ pw.length < 8), if_pos hany]

/-- Witness for the amended C3: a fresh registration succeeds; an
exact re-registration fails with DuplicateEmail. -/
theorem c3_registration_unique_exact_witness :
    (∃ u s1, register emptyStore "dave@example.com" "secret123" "secret123" "Dave" "D" none =
        .ok (u, s1) ∧ u.email = normalize_email "dave@example.com" ∧ u ∈ s1.users) ∧
    register aliceStore "alice@example.com" "secret123" "secret123" "Alice" "A" none =
      .error .duplicateEmail :=
  ⟨(c3_registration_unique_exact emptyStore "dave@example.com" "secret123" "secret123"
        "Dave" "D" none).1 (by decide) rfl (by decide)
      (by intro u hu; cases hu) (by intro u hu; cases hu),
    (c3_registration_unique_exact aliceStore "alice@example.com" "secret123" "secret123"
        "Alice" "A" none).2 alice (by decide) (by decide) (by decide)⟩

/-- C10: registration applies no restriction on the caller-supplied
role.  For every valid fresh registration input, supplying any of the
four `UserType` values — ADMIN included — yields an identity with
exactly that role, and omitting the field yields READER
(`UserRegistrationSerializer.create` uses
`validated_data.get("user_type", User.UserType.READER)` with no
permission check; the view allows any caller). -/
theorem c10_registration_role_unrestricted (s : Store) (email pw fn ln : String)
    (h8 : 8 ≤ pw.length) (he : email ≠ "")
    (hraw : ∀ u ∈ s.users, u.email ≠ email)
    (hnorm : ∀ u ∈ s.users, u.email ≠ normalize_email email) :
    (∀ rt : UserType, ∃ u s1,
      register s email pw pw fn ln (some rt) = .ok (u, s1) ∧ u.userType = rt)
    ∧
    (∃ u s1, register s email pw pw fn ln none = .ok (u, s1) ∧
      u.userType = UserType.READER) := by
  constructor
  · intro rt
    rw [register_ok s email pw pw fn ln (some rt) h8 rfl he hraw hnorm]
    exact ⟨_, _, rfl, rfl⟩
  · rw [register_ok s email pw pw fn ln none h8 rfl he hraw hnorm]
    exact ⟨_, _, rfl, rfl⟩

/-- Witness for C10: an unauthenticated registration requesting ADMIN
gets ADMIN. -/
theorem c10_registration_role_unrestricted_witness :
    ∃ u s1, register emptyStore "eve@example.com" "secret123" "secret123" "Eve" "E"
      (some UserType.ADMIN) = .ok (u, s1) ∧ u.userType = UserType.ADMIN :=
  (c10_registration_role_unrestricted emptyStore "eve@example.com" "secret123" "Eve" "E"
      (by decide) (by decide) (by intro u hu; cases hu) (by intro u hu; cases hu)).1
    UserType.ADMIN

/-- C4 counterexample: the Twitter callback's placeholder email is not
a function of the external id alone.  Two profile fetches carrying the
same external id 42 but different usernames (a Twitter handle can be
renamed while the id is stable) produce different placeholder emails,
because `TwitterCallbackView.post` builds the placeholder from the
username. -/
theorem c4_twitter_callback_placeholder_counterexample :
    ({ id := "42", name := "Bob B", username := "bob", profileImageUrl := "" } : TwitterProfile).id =
      ({ id := "42", name := "Bob B", username := "bobby", profileImageUrl := "" } : TwitterProfile).id ∧
    (twitterCallbackClaims { id := "42", name := "Bob B", username := "bob", profileImageUrl := "" }).email ≠
      (twitterCallbackClaims { id := "42", name := "Bob B", username := "bobby", profileImageUrl := "" }).email := by
  decide

/-- C4 amended: the Facebook view and the direct Twitter view
synthesize their placeholder (when the email is absent) as an
injective, deterministic function of the external id, on the
provider-scoped domain `facebook.placeholder.com` respectively
`twitter.placeholder.com`; the Twitter callback's placeholder is
instead a deterministic function of the profile username, so it is
stable only as long as the username does not change. -/
theorem c4_placeholder_email_shapes :
    (∀ fbid : String,
      facebookEffectiveEmail "" fbid = "fb_" ++ fbid ++ "@facebook.placeholder.com")
    ∧
    (∀ tid : String,
      twitterDirectEffectiveEmail "" tid = "twitter_" ++ tid ++ "@twitter.placeholder.com")
    ∧
    (∀ a b : String, facebookPlaceholderEmail a = facebookPlaceholderEmail b → a = b)
    ∧
    (∀ a b : String,
      twitterDirectPlaceholderEmail a = twitterDirectPlaceholderEmail b → a = b)
    ∧
    (∀ p q : TwitterProfile, p.username = q.username →
      (twitterCallbackClaims p).email = (twitterCallbackClaims q).email) := by
  refine ⟨fun fbid => rfl, fun tid => rfl, ?_, ?_, ?_⟩
  · intro a b h
    apply String.ext
    have hd := congrArg String.data h
    simp only [facebookPlaceholderEmail, String.data_append] at hd
    exact List.append_cancel_left (List.append_cancel_right hd)
  · intro a b h
    apply String.ext
    have hd := congrArg String.data h
    simp only [twitterDirectPlaceholderEmail, String.data_append] at hd
    exact List.append_cancel_left (List.append_cancel_right hd)
  · intro p q h
    simp only [twitterCallbackClaims, h]

/-- Witness for the amended C4: equal usernames give equal callback
placeholders even when everything else differs. -/
theorem c4_placeholder_email_shapes_witness :
    (twitterCallbackClaims { id := "1", name := "A B", username := "zed", profileImageUrl := "" }).email =
      (twitterCallbackClaims { id := "2", name := "C D", username := "zed", profileImageUrl := "x" }).email :=
  c4_placeholder_email_shapes.2.2.2.2
    { id := "1", name := "A B", username := "zed", profileImageUrl := "" }
    { id := "2", name := "C D", username := "zed", profileImageUrl := "x" } rfl

/-- C6: Twitter-callback CSRF protection.  (1) After the authorize
step stores a (non-empty) state for the session, any callback carrying
an authorization code and a submitted state different from the stored
one fails with CsrfMismatch, whatever the code and whatever the
upstream exchanges would return, and nothing is mutated.  (2) A
successful callback clears the stored state, so replaying any callback
against the resulting session — even with the previously valid state —
fails with CsrfMismatch and mutates nothing. -/
theorem c6_twitter_callback_csrf (s : Store) (sess0 : Session) (st cv : String)
    (_hst : st ≠ "") :
    (∀ (c : String) (state : Option String) (tokex : Option String)
        (fetch : String → Option TwitterProfile),
      c ≠ "" → state ≠ some st →
      twitterCallbackPost s (twitterLoginStoreSession sess0 st cv) (some c) state tokex fetch =
        (.error .csrfMismatch, s, twitterLoginStoreSession sess0 st cv))
    ∧
    (∀ (s' : Store) (sess : Session) (code state tokex : Option String)
        (fetch : String → Option TwitterProfile) (u : UserRec) (created : Bool)
        (s1 : Store) (sess1 : Session),
      twitterCallbackPost s' sess code state tokex fetch = (.ok (u, created), s1, sess1) →
      sess1.twitterOauthState = none ∧
      ∀ (c2 : String) (state2 tokex2 : Option String)
          (fetch2 : String → Option TwitterProfile),
        c2 ≠ "" →
        twitterCallbackPost s1 sess1 (some c2) state2 tokex2 fetch2 =
          (.error .csrfMismatch, s1, sess1)) := by
  constructor
  · intro c state tokex fetch hc hne
    unfold twitterCallbackPost twitterLoginStoreSession
    rw [if_neg (show ¬(some c = none ∨ some c = some "") by simp [hc])]
    dsimp only
    rw [if_pos (Or.inr hne)]
  · intro s' sess code state tokex fetch u created s1 sess1 h
    have hsess : sess1 = { twitterOauthState := none, twitterCodeVerifier := none } := by
      unfold twitterCallbackPost at h
      split at h
      · simp at h
      · split at h
        · simp at h
        · split at h
          · simp at h
          · split at h
            · simp at h
            · split at h
              · simp at h
              · dsimp only at h
                split at h
                · simp at h
                · exact (congrArg (fun t => t.2.2) h).symm
    subst hsess
    refine ⟨rfl, ?_⟩
    intro c2 state2 tokex2 fetch2 hc2
    unfold twitterCallbackPost
    rw [if_neg (show ¬(some c2 = none ∨ some c2 = some "") by simp [hc2])]

/-- Witness for C6: a concrete mismatched-state callback fails with
CsrfMismatch. -/
theorem c6_twitter_callback_csrf_witness :
    twitterCallbackPost emptyStore
        (twitterLoginStoreSession { twitterOauthState := none, twitterCodeVerifier := none }
          "STATE1" "VERIF1")
        (some "CODE") (some "STATE2") (some "tok") (fun _ => none) =
      (.error .csrfMismatch, emptyStore,
        twitterLoginStoreSession { twitterOauthState := none, twitterCodeVerifier := none }
          "STATE1" "VERIF1") :=
  (c6_twitter_callback_csrf emptyStore { twitterOauthState := none, twitterCodeVerifier := none }
      "STATE1" "VERIF1" (by decide)).1 "CODE" (some "STATE2") (some "tok") (fun _ => none)
    (by decide) (by decide)

/-- C8 counterexample: a successful direct login that does not refresh
the last-login timestamp.  The login succeeds and returns alice, yet
the store comes back unchanged and the returned record's `lastLogin`
is still unset — `UserLoginView.post` and
`UserLoginSerializer.validate` never write `last_login`. -/
theorem c8_last_login_not_refreshed_counterexample :
    userLoginPost aliceStore "alice@example.com" "secret123" = (.ok alice, aliceStore) ∧
    alice.lastLogin = none := by
  decide

/-- C8 amended: the direct login endpoint never mutates the credential
store — on success it returns a stored record as-is (so `last_login`
keeps its stored value, it is not refreshed), and on failure nothing
changes either. -/
theorem c8_login_never_mutates_store (s : Store) (e pw : String) :
    (userLoginPost s e pw).2 = s ∧
    (∀ u, (userLoginPost s e pw).1 = .ok u → u ∈ s.users) := by
  constructor
  · rfl
  · intro u h
    unfold userLoginPost login_validate at h
    dsimp only at h
    split at h
    · split at h
      · split at h
        · split at h
          · simp at h
          · cases h
            exact List.mem_of_find?_eq_some (by assumption)
        · simp at h
      · simp at h
    · simp at h

/-- Witness for the amended C8: the concrete successful login returns
a stored row. -/
theorem c8_login_never_mutates_store_witness :
    alice ∈ aliceStore.users :=
  (c8_login_never_mutates_store aliceStore "alice@example.com" "secret123").2 alice (by decide)

/-- C9: the data-deletion endpoint does NOT return the same
success-shaped response whether or not the account exists.  Both
branches answer 200, but the existing-account branch returns the
"request received" message together with a REQ confirmation code,
while the unknown-email branch returns a different message and no
confirmation code at all — so the body distinguishes registered
emails, contradicting the code's own comment ("Don't reveal whether
the email exists for security"). -/
theorem c9_deletion_response_distinguishes_existence :
    (dataDeletionRequestPost (fun _ => 0) aliceStore "alice@example.com" none).1 =
      { statusCode := 200, message := deletionReceivedMessage,
        confirmationCode := some "REQ-00000" } ∧
    (dataDeletionRequestPost (fun _ => 0) aliceStore "ghost@example.com" none).1 =
      { statusCode := 200, message := deletionNotFoundMessage, confirmationCode := none } ∧
    deletionReceivedMessage ≠ deletionNotFoundMessage := by
  decide

theorem not_social_of_find?_none {s : Store} {p : Provider} {sid : String}
    (hfind : s.users.find? (fun v => getSocialId v p == some sid) = none) :
    ∀ v ∈ s.users, getSocialId v p ≠ some sid := by
  intro v hv
  have := List.find?_eq_none.mp hfind v hv
  simpa [beq_iff_eq] using this

theorem providerIds_unique_cons (s : Store) (p : Provider) (sid : String) (w : UserRec)
    (hfind : s.users.find? (fun v => getSocialId v p == some sid) = none)
    (hu : ProviderIdsUnique s)
    (hwp : getSocialId w p = some sid)
    (hwother : ∀ q, q ≠ p → getSocialId w q = none)
    (n : Nat) :
    ProviderIdsUnique { users := w :: s.users, nextId := n } := by
  have hnone := not_social_of_find?_none hfind
  intro q x hx y hy sid' hgx hgy
  rcases List.mem_cons.mp hx with rfl | hx'
  · rcases List.mem_cons.mp hy with rfl | hy'
    · rfl
    · by_cases hq : q = p
      · subst hq
        rw [hwp] at hgx
        obtain rfl := Option.some.inj hgx
        exact absurd hgy (hnone y hy')
      · rw [hwother q hq] at hgx
        exact absurd hgx (by simp)
  · rcases List.mem_cons.mp hy with rfl | hy'
    · by_cases hq : q = p
      · subst hq
        rw [hwp] at hgy
        obtain rfl := Option.some.inj hgy
        exact absurd hgx (hnone x hx')
      · rw [hwother q hq] at hgy
        exact absurd hgy (by simp)
    · exact hu q x hx' y hy' sid' hgx hgy

theorem updateUser_cons_fresh (users : List UserRec) (u1 u2 : UserRec)
    (h12 : u1.id = u2.id) (hfresh : ∀ w ∈ users, w.id ≠ u2.id) :
    updateUser (u1 :: users) u2 = u2 :: users := by
  unfold updateUser
  rw [List.map_cons, if_pos h12]
  congr 1
  have hid : ∀ w ∈ users, (if w.id = u2.id then u2 else w) = id w := by
    intro w hw
    simp [hfresh w hw]
  rw [List.map_congr_left hid, List.map_id]

theorem providerIds_unique_update_cons (s : Store) (p : Provider) (sid : String)
    (u1 u2 : UserRec) (n : Nat)
    (h12 : u1.id = u2.id) (hfresh : ∀ w ∈ s.users, w.id ≠ u2.id)
    (hfind : s.users.find? (fun v => getSocialId v p == some sid) = none)
    (hu : ProviderIdsUnique s)
    (hwp : getSocialId u2 p = some sid)
    (hwother : ∀ q, q ≠ p → getSocialId u2 q = none) :
    ProviderIdsUnique { users := updateUser (u1 :: s.users) u2, nextId := n } := by
  rw [updateUser_cons_fresh s.users u1 u2 h12 hfresh]
  exact providerIds_unique_cons s p sid u2 hfind hu hwp hwother n

theorem providerIds_unique_link (s : Store) (p : Provider) (sid : String) (u0 X : UserRec)
    (hfind : s.users.find? (fun v => getSocialId v p == some sid) = none)
    (hu : ProviderIdsUnique s)
    (hXid : X.id = u0.id) (hmem : u0 ∈ s.users)
    (hXp : getSocialId X p = some sid)
    (hXother : ∀ q, q ≠ p → getSocialId X q = getSocialId u0 q) :
    ProviderIdsUnique { users := updateUser s.users X, nextId := s.nextId } := by
  have hnone := not_social_of_find?_none hfind
  intro q x hx y hy sid' hgx hgy
  obtain ⟨wx, hwx, hxe⟩ := List.mem_map.mp hx
  obtain ⟨wy, hwy, hye⟩ := List.mem_map.mp hy
  by_cases bx : wx.id = X.id <;> by_cases byy : wy.id = X.id
  · rw [if_pos bx] at hxe
    rw [if_pos byy] at hye
    rw [← hxe, ← hye]
  · rw [if_pos bx] at hxe
    rw [if_neg byy] at hye
    subst hxe
    subst hye
    by_cases hq : q = p
    · subst hq
      rw [hXp] at hgx
      obtain rfl := Option.some.inj hgx
      exact absurd hgy (hnone wy hwy)
    · rw [hXother q hq] at hgx
      have h0 := hu q u0 hmem wy hwy sid' hgx hgy
      exact absurd (show wy.id = X.id by rw [← h0, hXid]) byy
  · rw [if_neg bx] at hxe
    rw [if_pos byy] at hye
    subst hxe
    subst hye
    by_cases hq : q = p
    · subst hq
      rw [hXp] at hgy
      obtain rfl := Option.some.inj hgy
      exact absurd hgx (hnone wx hwx)
    · rw [hXother q hq] at hgy
      have h0 := hu q wx hwx u0 hmem sid' hgx hgy
      exact absurd (show wx.id = X.id by rw [h0, hXid]) bx
  · rw [if_neg bx] at hxe
    rw [if_neg byy] at hye
    subst hxe
    subst hye
    exact hu q wx hwx wy hwy sid' hgx hgy

/-- C7 counterexample: none of the provider-id columns carries a
unique constraint.  As declared in `models.py`, `google_id`,
`facebook_id` and `twitter_id` are plain
`CharField(max_length=100, blank=True, null=True)` with no
`unique=True`, while `email` does have one — so provider-id
uniqueness is not enforced atomically at the storage layer. -/
theorem c7_provider_id_no_unique_constraint :
    google_id_field.unique = false ∧ facebook_id_field.unique = false ∧
    twitter_id_field.unique = false ∧ email_field.unique = true := by
  decide

/-- C7 amended: provider-id uniqueness is only maintained by the
resolver's check-then-insert logic, not by a storage-layer
constraint.  `get_or_create_user` looks the provider id up before
linking or creating, so a store whose non-null provider ids are
pairwise distinct (and whose primary keys are below the
auto-increment counter) stays that way after any successful call —
but the provider-id columns themselves are declared without
`unique=True`, so nothing at the storage layer would stop two
concurrent requests from racing past the check. -/
theorem c7_provider_id_uniqueness_preserved (s : Store) (email fn ln sid pic : String)
    (p : Provider) (u : UserRec) (created : Bool) (s1 : Store)
    (hb : IdsBounded s) (hu : ProviderIdsUnique s)
    (h : get_or_create_user s email fn ln p sid pic = .ok (u, created, s1)) :
    ProviderIdsUnique s1 ∧ google_id_field.unique = false ∧
      facebook_id_field.unique = false ∧ twitter_id_field.unique = false := by
  refine ⟨?_, rfl, rfl, rfl⟩
  unfold get_or_create_user at h
  split at h
  · rename_i u0 heq1
    simp only [Except.ok.injEq, Prod.mk.injEq] at h
    obtain ⟨-, -, h3⟩ := h
    rw [← h3]
    exact hu
  · rename_i heq1
    split at h
    · rename_i u0 heq2
      have hmem := List.mem_of_find?_eq_some heq2
      dsimp only at h
      split at h
      · rename_i hcond
        simp only [Except.ok.injEq, Prod.mk.injEq] at h
        obtain ⟨-, -, h3⟩ := h
        rw [← h3]
        refine providerIds_unique_link s p sid u0 _ heq1 hu ?_ hmem ?_ ?_
        · rw [setSocialId_id]
        · rw [getSocialId_setPicture, getSocialId_setSocialId_same]
        · intro q hq
          rw [getSocialId_setPicture, getSocialId_setSocialId_other u0 p q sid hq]
      · simp only [Except.ok.injEq, Prod.mk.injEq] at h
        obtain ⟨-, -, h3⟩ := h
        rw [← h3]
        refine providerIds_unique_link s p sid u0 _ heq1 hu ?_ hmem ?_ ?_
        · rw [setSocialId_id]
        · rw [getSocialId_setSocialId_same]
        · intro q hq
          rw [getSocialId_setSocialId_other u0 p q sid hq]
    · rename_i heq2
      split at h
      · simp at h
      · rename_i u1 s2 heq3
        unfold create_user at heq3
        split at heq3
        · simp at heq3
        · rename_i hemail
          dsimp only at heq3
          split at heq3
          · simp at heq3
          · rename_i hany
            simp only [Except.ok.injEq, Prod.mk.injEq] at heq3
            obtain ⟨hu1, hs2⟩ := heq3
            subst hu1
            subst hs2
            have hfresh : ∀ w ∈ s.users, w.id ≠
                (setPassword (newUser s.nextId (normalize_email email)
                  (socialExtra p sid fn ln)) none).id := by
              intro w hw
              exact Nat.ne_of_lt (hb w hw)
            have hwp : ∀ x : String,
                getSocialId { setPassword (newUser s.nextId (normalize_email email)
                  (socialExtra p sid fn ln)) none with profilePicture := x } p = some sid := by
              intro x
              rw [getSocialId_setPicture]
              simpa using
                getSocialId_socialExtraUser s.nextId (normalize_email email) p p sid fn ln none
            have hwp0 : getSocialId (setPassword (newUser s.nextId (normalize_email email)
                (socialExtra p sid fn ln)) none) p = some sid := by
              simpa using
                getSocialId_socialExtraUser s.nextId (normalize_email email) p p sid fn ln none
            have hwother : ∀ x : String, ∀ q, q ≠ p →
                getSocialId { setPassword (newUser s.nextId (normalize_email email)
                  (socialExtra p sid fn ln)) none with profilePicture := x } q = none := by
              intro x q hq
              rw [getSocialId_setPicture]
              have hg := getSocialId_socialExtraUser s.nextId (normalize_email email)
                p q sid fn ln none
              rw [if_neg hq] at hg
              exact hg
            have hwother0 : ∀ q, q ≠ p →
                getSocialId (setPassword (newUser s.nextId (normalize_email email)
                  (socialExtra p sid fn ln)) none) q = none := by
              intro q hq
              have hg := getSocialId_socialExtraUser s.nextId (normalize_email email)
                p q sid fn ln none
              rw [if_neg hq] at hg
              exact hg
            split at h
            · rename_i hpic
              simp only [Except.ok.injEq, Prod.mk.injEq] at h
              obtain ⟨-, -, h3⟩ := h
              rw [← h3]
              exact providerIds_unique_update_cons s p sid _ _ (s.nextId + 1) rfl
                (fun w hw => Nat.ne_of_lt (hb w hw)) heq1 hu (hwp pic) (hwother pic)
            · simp only [Except.ok.injEq, Prod.mk.injEq] at h
              obtain ⟨-, -, h3⟩ := h
              rw [← h3]
              exact providerIds_unique_cons s p sid _ heq1 hu hwp0 hwother0 (s.nextId + 1)

/-- Witness for the amended C7: a concrete successful resolver call on
the empty store keeps provider ids unique. -/
theorem c7_provider_id_uniqueness_preserved_witness :
    ProviderIdsUnique
      { users := [mkCreatedUser emptyStore "frank@example.com" none
          (socialExtra Provider.google "g9" "Frank" "F")], nextId := 2 } ∧
    google_id_field.unique = false ∧ facebook_id_field.unique = false ∧
      twitter_id_field.unique = false :=
  c7_provider_id_uniqueness_preserved emptyStore "frank@example.com" "Frank" "F" "g9" ""
    Provider.google
    (mkCreatedUser emptyStore "frank@example.com" none
      (socialExtra Provider.google "g9" "Frank" "F"))
    true
    { users := [mkCreatedUser emptyStore "frank@example.com" none
        (socialExtra Provider.google "g9" "Frank" "F")], nextId := 2 }
    (by intro u hu; cases hu) (by intro p u hu; cases hu) (by decide)
